import Mathlib

/-!
Verification of the multi-agent consultation engine (7SH7/multi_agent)
against its natural-language specification.

The Python source is shallowly embedded: dictionaries become association
lists with Python-dict update semantics (replace in place, else append),
`datetime.now()` becomes an explicit `now : Nat` argument, external LLM and
HTTP calls become explicit oracle arguments, and float confidence scores
become rationals.
-/

namespace MultiAgent

/-- Association-list lookup with string keys, modelling Python `dict.get`. -/
def aget? {β : Type} : List (String × β) → String → Option β
  | [], _ => none
  | (k, v) :: t, key => if k = key then some v else aget? t key

/-- Association-list update, modelling Python `d[k] = v`: replaces the
binding in place when the key is present, otherwise appends. -/
def aset {β : Type} : List (String × β) → String → β → List (String × β)
  | [], key, v => [(key, v)]
  | (k, w) :: t, key, v =>
      if k = key then (k, v) :: t else (k, w) :: aset t key v

/-- Association-list removal, modelling Python `del d[k]`. -/
def adel {β : Type} : List (String × β) → String → List (String × β)
  | [], _ => []
  | (k, w) :: t, key => if k = key then t else (k, w) :: adel t key

/-! ## Session store (`src/core/simple_memory_store.py`) -/

/-- One entry of a conversation history, as appended by
`SimpleMemoryStore.add_conversation`. -/
structure ConvEntry where
  user_message : String
  bot_response : String
  timestamp : Nat
  deriving DecidableEq, Repr

/-- A session document held in `SimpleMemoryStore.sessions`.  The store only
ever touches the keys `conversation_history`, `conversation_count` and
`updated_at`; all other keys of the free-form Python dict are kept in
`extra`. -/
structure SessionData where
  conversation_history : List ConvEntry
  conversation_count : Nat
  updated_at : Nat
  extra : List (String × String)
  deriving DecidableEq, Repr

/-- The state of a `SimpleMemoryStore`: the `sessions` dict and the
`conversations` dict. -/
structure SimpleMemoryStore where
  sessions : List (String × SessionData)
  conversations : List (String × List ConvEntry)
  deriving DecidableEq, Repr

namespace SimpleMemoryStore

/-- The store as built by `SimpleMemoryStore.__init__`. -/
def empty : SimpleMemoryStore := ⟨[], []⟩

/-- `SimpleMemoryStore.set_session`: stores the document and returns True. -/
def set_session (st : SimpleMemoryStore) (sid : String) (sd : SessionData) :
    SimpleMemoryStore × Bool :=
  ({ st with sessions := aset st.sessions sid sd }, true)

/-- `SimpleMemoryStore.get_session`: `self.sessions.get(session_id)`;
`none` models Python `None`. -/
def get_session (st : SimpleMemoryStore) (sid : String) : Option SessionData :=
  aget? st.sessions sid

/-- `SimpleMemoryStore.delete_session`: removes the id from both dicts when
present and returns True in every case (the `except` branch is unreachable:
no statement in the `try` block raises). -/
def delete_session (st : SimpleMemoryStore) (sid : String) :
    SimpleMemoryStore × Bool :=
  ({ sessions := adel st.sessions sid,
     conversations := adel st.conversations sid }, true)

/-- `SimpleMemoryStore.add_conversation`: appends the turn to
`conversations[sid]` (creating the list if absent), and, only when a session
document exists, overwrites its `conversation_history` with that list and
sets `conversation_count = len(...)` and `updated_at`.  Returns True. -/
def add_conversation (st : SimpleMemoryStore) (sid um br : String)
    (now : Nat) : SimpleMemoryStore × Bool :=
  let prev := (aget? st.conversations sid).getD []
  let conv := prev ++ [⟨um, br, now⟩]
  let conversations := aset st.conversations sid conv
  let sessions :=
    match aget? st.sessions sid with
    | none => st.sessions
    | some sd =>
        aset st.sessions sid
          { sd with conversation_history := conv,
                    conversation_count := conv.length,
                    updated_at := now }
  ({ sessions := sessions, conversations := conversations }, true)

/-- `SimpleMemoryStore.get_conversation_history`:
`self.conversations.get(session_id, [])`. -/
def get_conversation_history (st : SimpleMemoryStore) (sid : String) :
    List ConvEntry :=
  (aget? st.conversations sid).getD []

/-- One successful turn on session `sid`, as committed by the store: the
state after `add_conversation`. -/
def applyTurn (st : SimpleMemoryStore) (sid : String)
    (t : String × String × Nat) : SimpleMemoryStore :=
  (add_conversation st sid t.1 t.2.1 t.2.2).1

/-- A sequence of turns on one session, applied in order. -/
def applyTurns (st : SimpleMemoryStore) (sid : String)
    (ts : List (String × String × Nat)) : SimpleMemoryStore :=
  ts.foldl (fun s t => applyTurn s sid t) st

end SimpleMemoryStore

/-! ## Expert confidence heuristics (`src/agents/gpt_agent.py`,
`src/agents/clova_agent.py`) -/

/-- Length adjustment of `GPTAgent.calculate_confidence`: base 0.8, +0.1
for responses longer than 800 characters, -0.2 for responses shorter than
200.  Floats are modelled as rationals. -/
def gptLengthAdjusted (responseLength : Nat) : ℚ :=
  if responseLength > 800 then 8 / 10 + 1 / 10
  else if responseLength < 200 then 8 / 10 - 2 / 10
  else 8 / 10

/-- Token adjustment of `GPTAgent.calculate_confidence`: when a token-usage
dict is given (`none` models a falsy `token_usage`), +0.05 above 1000
completion tokens and -0.1 below 300. -/
def gptTokenAdjusted (base : ℚ) (tokenUsage : Option Nat) : ℚ :=
  match tokenUsage with
  | none => base
  | some completionTokens =>
      if completionTokens > 1000 then base + 5 / 100
      else if completionTokens < 300 then base - 1 / 10
      else base

/-- `GPTAgent.calculate_confidence`: the adjusted base, clamped by
`min(0.95, max(0.3, base_confidence))`. -/
def gptCalculateConfidence (responseLength : Nat) (tokenUsage : Option Nat) : ℚ :=
  min (95 / 100) (max (3 / 10) (gptTokenAdjusted (gptLengthAdjusted responseLength) tokenUsage))

/-- Base of `ClovaAgent.calculate_confidence`: 0.7, +0.1 above 500
characters, -0.2 below 100, then the +0.05 keyword weight. -/
def clovaBase (responseLength : Nat) : ℚ :=
  (if responseLength > 500 then 7 / 10 + 1 / 10
   else if responseLength < 100 then 7 / 10 - 2 / 10
   else 7 / 10) + 5 / 100

/-- `ClovaAgent.calculate_confidence`: the adjusted base, clamped by
`min(0.90, max(0.3, base_confidence))`. -/
def clovaCalculateConfidence (responseLength : Nat) : ℚ :=
  min (9 / 10) (max (3 / 10) (clovaBase responseLength))

/-! ## Hybrid retrieval (`src/utils/rag_engines.py`) -/

/-- A retrieval snippet (`RAGResult`); the md5 content hash of the source is
modelled by the content string itself (md5 treated as injective), and the
float score as a rational. -/
structure RAGResult where
  content : String
  score : ℚ
  source : String
  deriving DecidableEq, Repr

/-- Stable descending insertion: the new element is placed before the first
strictly smaller score, hence after any element of equal score, matching the
stability of Python `sorted(..., reverse=True)`. -/
def insertDesc (r : RAGResult) : List RAGResult → List RAGResult
  | [] => [r]
  | x :: xs => if x.score < r.score then r :: x :: xs else x :: insertDesc r xs

/-- `sorted(all_results, key=lambda x: x.score, reverse=True)`. -/
def sortDesc (l : List RAGResult) : List RAGResult :=
  l.foldl (fun acc r => insertDesc r acc) []

/-- The de-duplication loop of `HybridRAGEngine.search`: keeps the first
occurrence of each content hash, carrying the `seen_content` set. -/
def dedupByContent : List RAGResult → List String → List RAGResult
  | [], _ => []
  | r :: rs, seen =>
      if r.content ∈ seen then dedupByContent rs seen
      else r :: dedupByContent rs (r.content :: seen)

/-- The result of one backing engine as seen after
`asyncio.gather(..., return_exceptions=True)`: an exception
(`Except.error`, also covering the internal catch-all of each engine that
returns `[]`) contributes nothing, a list contributes its elements. -/
def gatherResult (x : Except Unit (List RAGResult)) : List RAGResult :=
  match x with
  | Except.ok l => l
  | Except.error _ => []

/-- `HybridRAGEngine.search`, with the two backing-store outcomes passed as
oracles: concatenate whatever came back as a list, sort by descending score,
de-duplicate by content hash, return the first `top_k`. -/
def hybridSearch (chromaRes esRes : Except Unit (List RAGResult))
    (topK : Nat) : List RAGResult :=
  let allResults := gatherResult chromaRes ++ gatherResult esRes
  (dedupByContent (sortDesc allResults) []).take topK

/-! ## Workflow graph (`src/core/enhanced_workflow.py`) -/

/-- The nodes of the LangGraph built in
`EnhancedWorkflowManager._create_workflow`. -/
inductive WNode where
  | ragClassifier
  | agentSelector
  | gptAgent
  | geminiAgent
  | clovaAgent
  | debateModerator
  deriving DecidableEq, Repr

/-- `EnhancedWorkflowManager._route_to_agents`. -/
def routeToAgents (sel : List String) : String :=
  if sel.length = 1 then (sel.headD "") ++ "_only" else "multiple_agents"

/-- The conditional-edge map attached to `agent_selector`:
`{"gpt_only": "gpt_agent", "gemini_only": "gemini_agent",
"clova_only": "clova_agent", "multiple_agents": "gpt_agent"}`; a label
outside the map is a LangGraph routing error (`none`). -/
def selectorTarget (sel : List String) : Option WNode :=
  match routeToAgents sel with
  | "gpt_only" => some WNode.gptAgent
  | "gemini_only" => some WNode.geminiAgent
  | "clova_only" => some WNode.clovaAgent
  | "multiple_agents" => some WNode.gptAgent
  | _ => none

/-- `EnhancedWorkflowManager._route_after_gpt`. -/
def routeAfterGpt (sel : List String) : String :=
  if "gemini" ∈ sel then "continue" else "debate"

/-- `EnhancedWorkflowManager._route_after_gemini`. -/
def routeAfterGemini (sel : List String) : String :=
  if "clova" ∈ sel then "continue" else "debate"

/-- The successor of each node under the edges and conditional edges of
`_create_workflow`; `none` is `END` (after `debate_moderator`) or a routing
error.  Every node has at most ONE successor: the graph is a chain, not a
fan-out. -/
def nextNode (n : WNode) (sel : List String) : Option WNode :=
  match n with
  | WNode.ragClassifier => some WNode.agentSelector
  | WNode.agentSelector => selectorTarget sel
  | WNode.gptAgent =>
      if routeAfterGpt sel = "continue" then some WNode.geminiAgent
      else some WNode.debateModerator
  | WNode.geminiAgent =>
      if routeAfterGemini sel = "continue" then some WNode.clovaAgent
      else some WNode.debateModerator
  | WNode.clovaAgent => some WNode.debateModerator
  | WNode.debateModerator => none

/-- The nodes visited by one run of the compiled graph, in execution order,
starting from the entry point `rag_classifier`.  Fuel 6 covers the longest
possible chain. -/
def traceFrom : Nat → WNode → List String → List WNode
  | 0, n, _ => [n]
  | fuel + 1, n, sel =>
      n :: (match nextNode n sel with
            | none => []
            | some m => traceFrom fuel m sel)

/-- The execution order of nodes for a turn whose selector chose `sel`. -/
def executionTrace (sel : List String) : List WNode :=
  traceFrom 6 WNode.ragClassifier sel

/-- Expert nodes of the graph. -/
def isExpertNode : WNode → Bool
  | WNode.gptAgent => true
  | WNode.geminiAgent => true
  | WNode.clovaAgent => true
  | _ => false

/-- The expert nodes actually visited in a turn, in execution order.  A
visited expert node whose agent is not selected does nothing. -/
def expertsVisited (sel : List String) : List WNode :=
  (executionTrace sel).filter isExpertNode

/-- Whether visiting node `n` invokes an expert call: an expert node only
calls its agent when that agent is in `selected_agents`. -/
def invokesExpert (sel : List String) (n : WNode) : Bool :=
  match n with
  | WNode.gptAgent => decide ("gpt" ∈ sel)
  | WNode.geminiAgent => decide ("gemini" ∈ sel)
  | WNode.clovaAgent => decide ("clova" ∈ sel)
  | _ => false

/-- The experts actually invoked in a turn, in invocation order. -/
def invokedExperts (sel : List String) : List WNode :=
  (executionTrace sel).filter (invokesExpert sel)

/-- The selected experts in the fixed chain order gpt, gemini, clova. -/
def selectedExpertsInOrder (sel : List String) : List WNode :=
  (if "gpt" ∈ sel then [WNode.gptAgent] else []) ++
  (if "gemini" ∈ sel then [WNode.geminiAgent] else []) ++
  (if "clova" ∈ sel then [WNode.clovaAgent] else [])

/-- The amended routing contract of the graph: one linear chain classifier,
selector, the visited experts in the fixed order gpt, gemini, clova, then
the moderator; every selected expert is visited, except that a selection of
gpt and clova without gemini skips clova entirely. -/
def sequentialRoutingContract (sel : List String) : Prop :=
  executionTrace sel =
    [WNode.ragClassifier, WNode.agentSelector] ++
      expertsVisited sel ++ [WNode.debateModerator] ∧
  (¬("gpt" ∈ sel ∧ "clova" ∈ sel ∧ "gemini" ∉ sel) →
      invokedExperts sel = selectedExpertsInOrder sel) ∧
  (("gpt" ∈ sel ∧ "clova" ∈ sel ∧ "gemini" ∉ sel) →
      invokedExperts sel = [WNode.gptAgent] ∧
      WNode.clovaAgent ∉ executionTrace sel)

/-- All orderings of the nonempty subsets of `{gpt, gemini, clova}`: the
selector (spec section 4.4) returns 1 to 3 distinct names from this set. -/
def validSelections : List (List String) :=
  [["gpt"], ["gemini"], ["clova"],
   ["gpt", "gemini"], ["gemini", "gpt"],
   ["gpt", "clova"], ["clova", "gpt"],
   ["gemini", "clova"], ["clova", "gemini"],
   ["gpt", "gemini", "clova"], ["gpt", "clova", "gemini"],
   ["gemini", "gpt", "clova"], ["gemini", "clova", "gpt"],
   ["clova", "gpt", "gemini"], ["clova", "gemini", "gpt"]]

/-! ## Agent state and expert nodes -/

/-- An expert response as produced by `BaseAgent.create_response` and
consumed by the moderator: name, specialty, reply text and confidence. -/
structure AgentResponse where
  agent_name : String
  specialty : String
  response : String
  confidence : ℚ
  deriving DecidableEq, Repr

/-- A debate-simulation record as consumed downstream of
`simulate_expert_debate`: the number of rounds, the consensus points, the
final agreement and synthesis notes, and whether it is the parse-failure
record (which keeps the raw text and has no rounds). -/
structure DebateSim where
  debate_rounds : Nat
  consensus_points : List String
  final_agreement : String
  synthesis_notes : String
  parse_error : Bool
  deriving DecidableEq, Repr

/-- The moderator output dict of section 3 of the spec, as a record; keys a
given code path does not write are modelled by the neutral values `none`,
`[]`, `""`, `false` and `0`.  Immediate actions and solution phases are kept
as their action texts. -/
structure Recommendation where
  executive_summary : String
  immediate_actions : List String
  detailed_solution : List String
  cost_parts : String
  cost_labor : String
  cost_total : String
  safety_precautions : List String
  prevention_measures : List String
  success_indicators : List String
  alternative_approaches : List String
  expert_consensus : String
  confidence_level : ℚ
  recommended_followup : String
  participating_agents : List String
  debate_rounds_count : Nat
  fallback : Bool
  primary_response : Option String
  primary_agent : Option String
  note : Option String
  error : Option String
  deriving DecidableEq, Repr

/-- The workflow state (`models/agent_state.py` TypedDict, fields as
constructed in `src/api/main.py`); `None` list fields are modelled as `[]`
and free-form payloads as strings. -/
structure AgentState where
  session_id : String
  conversation_count : Nat
  response_type : String
  user_message : String
  issue_code : String
  user_id : String
  issue_classification : Option String
  question_category : Option String
  rag_context : Option String
  selected_agents : List String
  selection_reasoning : Option String
  agent_responses : List (String × AgentResponse)
  debate_rounds : List DebateSim
  consensus_points : List String
  final_recommendation : Option Recommendation
  conversation_history : List ConvEntry
  processing_steps : List String
  error : Option String
  failed_agents : List String
  deriving DecidableEq, Repr

/-- `EnhancedWorkflowManager._execute_gpt_agent` with the external result of
`GPTAgent.analyze_and_respond` passed as the oracle `resp`: when `gpt` was
selected, write the response into `agent_responses`; otherwise return the
state untouched. -/
def executeGptAgent (state : AgentState) (resp : AgentResponse) : AgentState :=
  if "gpt" ∈ state.selected_agents then
    { state with agent_responses := aset state.agent_responses "gpt" resp }
  else state

/-- `EnhancedWorkflowManager._execute_gemini_agent`, same shape. -/
def executeGeminiAgent (state : AgentState) (resp : AgentResponse) : AgentState :=
  if "gemini" ∈ state.selected_agents then
    { state with agent_responses := aset state.agent_responses "gemini" resp }
  else state

/-- `EnhancedWorkflowManager._execute_clova_agent`, same shape. -/
def executeClovaAgent (state : AgentState) (resp : AgentResponse) : AgentState :=
  if "clova" ∈ state.selected_agents then
    { state with agent_responses := aset state.agent_responses "clova" resp }
  else state

/-! ## Debate moderator (`src/agents/debate_moderator.py`)

External Claude (expert D) calls are modelled by oracle arguments: `some`
carries the successfully parsed JSON of one phase, `none` is a parse or API
failure, which the phase converts into its local fallback record.  Each
function also reports how many times it invoked D. -/

/-- A neutral, all-empty recommendation used as the base for the sparse
dicts the moderator builds on its special paths. -/
def emptyRecommendation : Recommendation :=
  { executive_summary := ""
    immediate_actions := []
    detailed_solution := []
    cost_parts := ""
    cost_labor := ""
    cost_total := ""
    safety_precautions := []
    prevention_measures := []
    success_indicators := []
    alternative_approaches := []
    expert_consensus := ""
    confidence_level := 0
    recommended_followup := ""
    participating_agents := []
    debate_rounds_count := 0
    fallback := false
    primary_response := none
    primary_agent := none
    note := none
    error := none }

/-- The fixed recommendation of `handle_single_agent_response` when no
expert response is available (the `else` branch): fixed explanation and
confidence 0.0. -/
def noAgentsRecommendation : Recommendation :=
  { emptyRecommendation with
      executive_summary := "분석할 전문가 응답이 없습니다."
      cost_parts := "N/A"
      cost_labor := "N/A"
      cost_total := "N/A"
      expert_consensus := "분석 실패"
      confidence_level := 0
      recommended_followup := "시스템 관리자에게 문의하세요." }

/-- The basic fallback structure built when structuring a single expert
response through D fails (lines 399-411 of the moderator). -/
def singleAgentBasicRecommendation (agentName responseText : String)
    (confidence : ℚ) : Recommendation :=
  { emptyRecommendation with
      executive_summary := agentName ++ " 전문가의 분석 결과를 제시합니다."
      immediate_actions := ["전문가 의견 검토"]
      detailed_solution := [responseText.take 200 ++ "..."]
      cost_parts := "분석 필요"
      cost_labor := "분석 필요"
      cost_total := "분석 필요"
      safety_precautions := ["전문가 권장사항 준수"]
      prevention_measures := ["정기 점검 실시"]
      success_indicators := ["문제 해결 확인"]
      alternative_approaches := ["다른 전문가 의견 추가 검토"]
      expert_consensus := agentName ++ " 단독 분석"
      confidence_level := confidence
      recommended_followup := "다른 전문가 의견도 함께 검토해보시기 바랍니다." }

/-- `DebateModerator.handle_single_agent_response`: with exactly one expert
response, ask D to structure it (one invocation; on failure fall back to the
basic structure); with no response, return the fixed zero-confidence
recommendation without invoking D. -/
def handleSingleAgentResponse (state : AgentState)
    (structureOracle : Option Recommendation) : AgentState × Nat :=
  match state.agent_responses with
  | [(agentName, responseData)] =>
      let rec_ :=
        match structureOracle with
        | some parsed => parsed
        | none =>
            singleAgentBasicRecommendation agentName responseData.response
              responseData.confidence
      ({ state with
           final_recommendation := some rec_,
           processing_steps :=
             state.processing_steps ++ ["single_agent_processed"] }, 1)
  | _ =>
      ({ state with
           final_recommendation := some noAgentsRecommendation,
           processing_steps :=
             state.processing_steps ++ ["single_agent_processed"] }, 0)

/-- Python `max(items, key=confidence)` over a nonempty association list of
responses: keeps the earlier entry on ties. -/
def maxByConfidence (hd : String × AgentResponse)
    (tl : List (String × AgentResponse)) : String × AgentResponse :=
  tl.foldl (fun best cur =>
    if best.2.confidence < cur.2.confidence then cur else best) hd

/-- `DebateModerator.handle_debate_failure`: picks the highest-confidence
expert, marks the recommendation `fallback: True`, stores the expert text
under `primary_response` and uses a fixed notice as the executive summary;
with no responses at all it returns a bare error record. -/
def handleDebateFailure (state : AgentState)
    (agentResponses : List (String × AgentResponse)) : AgentState :=
  let rec_ :=
    match agentResponses with
    | [] =>
        { emptyRecommendation with error := some "토론 실패 및 분석할 응답 없음" }
    | hd :: tl =>
        let best := maxByConfidence hd tl
        { emptyRecommendation with
            executive_summary :=
              "토론 진행 중 오류가 발생하여 최고 신뢰도 전문가 의견을 제시합니다."
            primary_response := some best.2.response
            primary_agent := some best.1
            confidence_level := best.2.confidence
            fallback := true
            note := some
              "토론 시뮬레이션에 실패했으나, 개별 전문가 분석은 정상적으로 완료되었습니다." }
  { state with
      final_recommendation := some rec_,
      processing_steps := state.processing_steps ++ ["debate_fallback"] }

/-- `DebateModerator.simulate_expert_debate` as seen downstream: a parsed
transcript, or the parse-failure record, which keeps the raw text and
carries no rounds and no consensus points. -/
def simulateExpertDebate (debateOracle : Option DebateSim) : DebateSim :=
  match debateOracle with
  | some sim => { sim with parse_error := false }
  | none => ⟨0, [], "", "", true⟩

/-- `DebateModerator.synthesize_final_solution`: the parsed recommendation
of phase 3, enriched with provenance; a parse failure yields the error
record (note: NOT the best-expert fallback). -/
def synthesizeFinalSolution (synthesisOracle : Option Recommendation)
    (agentNames : List String) (sim : DebateSim) : Recommendation :=
  match synthesisOracle with
  | some parsed =>
      { parsed with
          participating_agents := agentNames,
          debate_rounds_count := sim.debate_rounds }
  | none =>
      { emptyRecommendation with error := some "최종 솔루션 파싱 실패" }

/-- `DebateModerator.moderate_debate`: with fewer than two expert responses
skip the debate and delegate to `handle_single_agent_response`; otherwise
run the three D phases (difference analysis, debate simulation, synthesis,
one D invocation each; each phase absorbs its own parse failures) and commit
the results to the state.  `analysisOracle` only feeds prompt text, so only
its success flag is kept. -/
def moderateDebate (state : AgentState) (_analysisOracle : Option Unit)
    (debateOracle : Option DebateSim)
    (synthesisOracle : Option Recommendation)
    (structureOracle : Option Recommendation) : AgentState × Nat :=
  if state.agent_responses.length < 2 then
    handleSingleAgentResponse state structureOracle
  else
    let sim := simulateExpertDebate debateOracle
    let finalRec := synthesizeFinalSolution synthesisOracle
      (state.agent_responses.map Prod.fst) sim
    ({ state with
         debate_rounds := [sim],
         consensus_points := sim.consensus_points,
         final_recommendation := some finalRec,
         processing_steps := state.processing_steps ++ ["debate_completed"] }, 3)

/-! ## Chat endpoints (`src/api/main.py`)

The endpoints delegate session persistence to `core.session_manager`, which
is not part of the sources; its operations are modelled from the spec
below.  The workflow outcome is the oracle `wfSuccess` (did
`workflow_manager.execute` return a successful `WorkflowResult` carrying a
recommendation). -/

/-- A session document of the session manager. -/
structure Session where
  session_id : String
  user_id : String
  issue_code : String
  conversation_count : Nat
  conversation_history : List ConvEntry
  deriving DecidableEq, Repr

/-- The session-manager state: session id to document. -/
abbrev SessionStore : Type := List (String × Session)

/-- Modelled from the spec: `SessionManager.get_session` (spec section 4.7,
`get(id) -> Session | NOT_FOUND`); the class itself is absent from the
sources. -/
def smGetSession (store : SessionStore) (sid : String) : Option Session :=
  aget? store sid

/-- Modelled from the spec: `SessionManager.create_session` (spec section
4.7 `create`), saving a fresh document with counter 0 and empty history;
the class itself is absent from the sources. -/
def smCreateSession (store : SessionStore) (newId userId issueCode : String) :
    SessionStore × Session :=
  let s : Session := ⟨newId, userId, issueCode, 0, []⟩
  (aset store newId s, s)

/-- Modelled from the spec: `SessionManager.increment_conversation_count`,
absent from the sources; from its name and call site it bumps the stored
conversation counter of the session by one. -/
def smIncrementCount (store : SessionStore) (sid : String) : SessionStore :=
  match aget? store sid with
  | none => store
  | some s =>
      aset store sid { s with conversation_count := s.conversation_count + 1 }

/-- Modelled from the spec: `SessionManager.add_conversation_detailed`,
absent from the sources; per spec section 4.7 (`append_turn` updates counter
and history together) and the caller comment in `src/api/main.py` (it
increments `conversation_count`), it appends the turn and bumps the
counter atomically. -/
def smAddConversationDetailed (store : SessionStore) (sid : String)
    (entry : ConvEntry) : SessionStore :=
  match aget? store sid with
  | none => store
  | some s =>
      aset store sid
        { s with
            conversation_count := s.conversation_count + 1,
            conversation_history := s.conversation_history ++ [entry] }

/-- Modelled from the spec: `SessionManager.add_conversation`, absent from
the sources; modelled like `SimpleMemoryStore.add_conversation`, appending
the turn and keeping the counter equal to the history length. -/
def smAddConversation (store : SessionStore) (sid : String)
    (entry : ConvEntry) : SessionStore :=
  match aget? store sid with
  | none => store
  | some s =>
      let hist := s.conversation_history ++ [entry]
      aset store sid
        { s with
            conversation_count := hist.length,
            conversation_history := hist }

/-- The `/chat` endpoint (`chat_endpoint`), session flow only: resolve or
create the session, run the workflow, and only on success commit the turn
with `add_conversation_detailed`; a workflow failure raises HTTP 500 before
any session mutation.  Returns the store and the HTTP status. -/
def chatEndpoint (store : SessionStore) (sessionId : Option String)
    (newId userId issueCode : String) (wfSuccess : Bool) (entry : ConvEntry) :
    SessionStore × Nat :=
  match sessionId with
  | some sid =>
      match aget? store sid with
      | none => (store, 404)
      | some _ =>
          if wfSuccess then (smAddConversationDetailed store sid entry, 200)
          else (store, 500)
  | none =>
      let created := smCreateSession store newId userId issueCode
      if wfSuccess then
        (smAddConversationDetailed created.1 newId entry, 200)
      else (created.1, 500)

/-- The `/chat/test` endpoint (`chat_test_endpoint`), session flow only: it
calls `increment_conversation_count` BEFORE executing the workflow, then on
success commits the turn with `add_conversation`; a workflow failure raises
HTTP 500 after the counter was already bumped. -/
def chatTestEndpoint (store : SessionStore) (sessionId : Option String)
    (newId userId issueCode : String) (wfSuccess : Bool) (entry : ConvEntry) :
    SessionStore × Nat :=
  let resolved : Option (SessionStore × String) :=
    match sessionId with
    | some sid =>
        match aget? store sid with
        | none => none
        | some _ => some (store, sid)
    | none => some ((smCreateSession store newId userId issueCode).1, newId)
  match resolved with
  | none => (store, 404)
  | some (store1, sid) =>
      let store2 := smIncrementCount store1 sid
      if wfSuccess then (smAddConversation store2 sid entry, 200)
      else (store2, 500)

/-! ## Concrete data for witnesses and counterexamples -/

/-- A store holding one fresh session document under id `s`. -/
def c1exStore : SimpleMemoryStore :=
  (SimpleMemoryStore.set_session SimpleMemoryStore.empty "s" ⟨[], 0, 0, []⟩).1

/-- Two turns on session `s`. -/
def c1exTurns : List (String × String × Nat) :=
  [("hello", "reply-one", 1), ("again", "reply-two", 2)]

/-- The session document expected after both turns of `c1exTurns`. -/
def c1exDoc : SessionData :=
  ⟨[⟨"hello", "reply-one", 1⟩, ⟨"again", "reply-two", 2⟩], 2, 2, []⟩

/-- A base workflow state with a fresh session and no expert responses. -/
def exState : AgentState :=
  { session_id := "s"
    conversation_count := 1
    response_type := "first_question"
    user_message := "question"
    issue_code := "GENERAL"
    user_id := "u"
    issue_classification := none
    question_category := none
    rag_context := none
    selected_agents := ["gpt"]
    selection_reasoning := none
    agent_responses := []
    debate_rounds := []
    consensus_points := []
    final_recommendation := none
    conversation_history := []
    processing_steps := []
    error := none
    failed_agents := [] }

/-- A concrete expert response. -/
def exResponse : AgentResponse := ⟨"GPT", "analysis", "detailed answer", 8 / 10⟩

/-- The first of two concrete expert responses, the more confident one. -/
def c7exHd : String × AgentResponse := ("GPT", ⟨"GPT", "analysis", "point A", 9 / 10⟩)

/-- The remaining concrete expert responses. -/
def c7exTl : List (String × AgentResponse) :=
  [("Clova", ⟨"Clova", "practice", "point B", 3 / 4⟩)]

/-- A state carrying two successful expert responses, GPT the more
confident one. -/
def c7exState : AgentState :=
  { exState with
      selected_agents := ["gpt", "clova"]
      agent_responses := c7exHd :: c7exTl }

/-- A session store holding one session with counter 0 and empty history. -/
def c2exStore : SessionStore := [("s", ⟨"s", "u", "GENERAL", 0, []⟩)]

/-- A concrete committed turn. -/
def c2exEntry : ConvEntry := ⟨"q", "a", 1⟩

/-! # Helper lemmas -/

theorem aget_aset_self {β : Type} (l : List (String × β)) (k : String) (v : β) :
    aget? (aset l k v) k = some v := by
  induction l with
  | nil => simp [aset, aget?]
  | cons hd t ih =>
      obtain ⟨k0, v0⟩ := hd
      by_cases h : k0 = k
      · simp [aset, aget?, h]
      · simp [aset, aget?, h, ih]

theorem aget_aset_other {β : Type} (l : List (String × β)) (k k0 : String)
    (v : β) (h : k0 ≠ k) : aget? (aset l k v) k0 = aget? l k0 := by
  induction l with
  | nil => simp [aset, aget?, Ne.symm h]
  | cons hd t ih =>
      obtain ⟨k1, v1⟩ := hd
      by_cases h1 : k1 = k
      · subst h1
        simp [aset, aget?, Ne.symm h]
      · by_cases h2 : k1 = k0
        · subst h2
          simp [aset, aget?, h1]
        · simp [aset, aget?, h1, h2, ih]

theorem adel_not_found {β : Type} (l : List (String × β)) (k : String)
    (h : aget? l k = none) : adel l k = l := by
  induction l with
  | nil => rfl
  | cons hd t ih =>
      obtain ⟨k0, v0⟩ := hd
      by_cases hk : k0 = k
      · simp [aget?, hk] at h
      · simp only [aget?, if_neg hk] at h
        simp [adel, hk, ih h]

theorem add_conversation_session_invariant (st : SimpleMemoryStore)
    (sid um br : String) (now : Nat) (sd : SessionData)
    (h : aget? ((SimpleMemoryStore.add_conversation st sid um br now).1).sessions sid = some sd) :
    sd.conversation_count = sd.conversation_history.length := by
  simp only [SimpleMemoryStore.add_conversation] at h
  cases hs : aget? st.sessions sid with
  | none =>
      rw [hs] at h
      simp only at h
      rw [hs] at h
      cases h
  | some sd0 =>
      rw [hs] at h
      simp only [aget_aset_self] at h
      cases h
      simp

theorem applyTurns_invariant (sid : String) (ts : List (String × String × Nat)) :
    ∀ (st : SimpleMemoryStore), ts ≠ [] →
      ∀ sd, aget? ((SimpleMemoryStore.applyTurns st sid ts).sessions) sid = some sd →
        sd.conversation_count = sd.conversation_history.length := by
  induction ts with
  | nil => intro st hne; exact absurd rfl hne
  | cons t ts ih =>
      intro st _ sd h
      cases ts with
      | nil =>
          have hfold :
              SimpleMemoryStore.applyTurns st sid [t] =
                SimpleMemoryStore.applyTurn st sid t := rfl
          rw [hfold] at h
          exact add_conversation_session_invariant st sid t.1 t.2.1 t.2.2 sd h
      | cons t2 ts2 =>
          have hfold :
              SimpleMemoryStore.applyTurns st sid (t :: t2 :: ts2) =
                SimpleMemoryStore.applyTurns (SimpleMemoryStore.applyTurn st sid t) sid (t2 :: ts2) := rfl
          rw [hfold] at h
          exact ih (SimpleMemoryStore.applyTurn st sid t) (by simp) sd h

theorem clamp_mem (lo hi x : ℚ) (h : lo ≤ hi) :
    lo ≤ min hi (max lo x) ∧ min hi (max lo x) ≤ hi :=
  ⟨le_min h (le_max_left _ _), min_le_left _ _⟩

theorem mem_insertDesc {r y : RAGResult} {l : List RAGResult} :
    y ∈ insertDesc r l ↔ y = r ∨ y ∈ l := by
  induction l with
  | nil => simp [insertDesc]
  | cons x xs ih =>
      by_cases h : x.score < r.score
      · simp [insertDesc, h]
      · simp only [insertDesc, if_neg h, List.mem_cons, ih]
        tauto

theorem pairwise_insertDesc (r : RAGResult) (l : List RAGResult)
    (h : l.Pairwise (fun a b => b.score ≤ a.score)) :
    (insertDesc r l).Pairwise (fun a b => b.score ≤ a.score) := by
  induction l with
  | nil => simp [insertDesc]
  | cons x xs ih =>
      rcases List.pairwise_cons.mp h with ⟨hx, hxs⟩
      by_cases hcmp : x.score < r.score
      · simp only [insertDesc, if_pos hcmp]
        refine List.pairwise_cons.mpr ⟨?_, h⟩
        intro y hy
        rcases List.mem_cons.mp hy with rfl | hy
        · exact hcmp.le
        · exact (hx y hy).trans hcmp.le
      · simp only [insertDesc, if_neg hcmp]
        refine List.pairwise_cons.mpr ⟨?_, ih hxs⟩
        intro y hy
        rcases mem_insertDesc.mp hy with rfl | hy
        · exact not_lt.mp hcmp
        · exact hx y hy

theorem pairwise_sortDesc (l : List RAGResult) :
    (sortDesc l).Pairwise (fun a b => b.score ≤ a.score) := by
  have key : ∀ (l2 acc : List RAGResult),
      acc.Pairwise (fun a b => b.score ≤ a.score) →
      (l2.foldl (fun acc r => insertDesc r acc) acc).Pairwise
        (fun a b => b.score ≤ a.score) := by
    intro l2
    induction l2 with
    | nil => intro acc h; simpa using h
    | cons x xs ih => intro acc h; exact ih _ (pairwise_insertDesc x acc h)
  exact key l [] (by simp)

theorem sublist_dedup (l : List RAGResult) :
    ∀ (seen : List String), List.Sublist (dedupByContent l seen) l := by
  induction l with
  | nil => intro seen; exact List.Sublist.refl []
  | cons r rs ih =>
      intro seen
      by_cases h : r.content ∈ seen
      · simp only [dedupByContent, if_pos h]
        exact (ih seen).cons r
      · simp only [dedupByContent, if_neg h]
        exact (ih _).cons₂ r

theorem dedup_contents_nodup (l : List RAGResult) :
    ∀ (seen : List String),
      ((dedupByContent l seen).map RAGResult.content).Nodup ∧
      ∀ c ∈ (dedupByContent l seen).map RAGResult.content, c ∉ seen := by
  induction l with
  | nil => intro seen; simp [dedupByContent]
  | cons r rs ih =>
      intro seen
      by_cases h : r.content ∈ seen
      · simpa [dedupByContent, h] using ih seen
      · simp only [dedupByContent, if_neg h, List.map_cons]
        obtain ⟨ihnd, ihseen⟩ := ih (r.content :: seen)
        constructor
        · refine List.nodup_cons.mpr ⟨?_, ihnd⟩
          intro hmem
          exact (ihseen _ hmem) (List.mem_cons_self _ _)
        · intro c hc
          rcases List.mem_cons.mp hc with rfl | hc
          · exact h
          · intro hcseen
            exact (ihseen c hc) (List.mem_cons_of_mem _ hcseen)

theorem maxByConfidence_step (hd c : String × AgentResponse)
    (tl : List (String × AgentResponse)) :
    maxByConfidence hd (c :: tl) =
      maxByConfidence (if hd.2.confidence < c.2.confidence then c else hd) tl := rfl

theorem maxByConfidence_mem (hd : String × AgentResponse)
    (tl : List (String × AgentResponse)) :
    maxByConfidence hd tl ∈ hd :: tl := by
  induction tl generalizing hd with
  | nil => simp [maxByConfidence]
  | cons c tl ih =>
      rw [maxByConfidence_step]
      rcases List.mem_cons.mp
          (ih (if hd.2.confidence < c.2.confidence then c else hd)) with heq | hmem
      · rw [heq]
        by_cases hc : hd.2.confidence < c.2.confidence <;> simp [hc]
      · exact List.mem_cons_of_mem _ (List.mem_cons_of_mem _ hmem)

theorem maxByConfidence_ge (hd : String × AgentResponse)
    (tl : List (String × AgentResponse)) :
    ∀ x ∈ hd :: tl, x.2.confidence ≤ (maxByConfidence hd tl).2.confidence := by
  induction tl generalizing hd with
  | nil =>
      intro x hx
      rcases List.mem_cons.mp hx with rfl | h
      · simp [maxByConfidence]
      · simp at h
  | cons c tl ih =>
      intro x hx
      rw [maxByConfidence_step]
      have hhd : hd.2.confidence ≤
          (if hd.2.confidence < c.2.confidence then c else hd).2.confidence := by
        split_ifs with hc
        · exact hc.le
        · exact le_refl _
      have hc2 : c.2.confidence ≤
          (if hd.2.confidence < c.2.confidence then c else hd).2.confidence := by
        split_ifs with hc
        · exact le_refl _
        · exact not_lt.mp hc
      have hmax := ih (if hd.2.confidence < c.2.confidence then c else hd)
      have htop := hmax _ (List.mem_cons_self _ _)
      rcases List.mem_cons.mp hx with rfl | hx2
      · exact hhd.trans htop
      · rcases List.mem_cons.mp hx2 with rfl | hx3
        · exact hc2.trans htop
        · exact hmax x (List.mem_cons_of_mem _ hx3)

/-! # Claim theorems -/

/-- C1: for every sequence of successful turns on one session, after each
turn the stored session document (when one exists) satisfies
`conversation_count == len(conversation_history)`. -/
theorem c1_conversation_count_matches_history (st : SimpleMemoryStore)
    (sid : String) (turns : List (String × String × Nat)) (i : Nat)
    (h : i < turns.length) (sd : SessionData)
    (hget : aget? ((SimpleMemoryStore.applyTurns st sid (turns.take (i + 1))).sessions) sid = some sd) :
    sd.conversation_count = sd.conversation_history.length := by
  refine applyTurns_invariant sid (turns.take (i + 1)) st ?_ sd hget
  have hlen : (turns.take (i + 1)).length = min (i + 1) turns.length :=
    List.length_take _ _
  intro hnil
  rw [hnil] at hlen
  simp at hlen
  omega

/-- Witness for C1 at two concrete turns. -/
theorem c1_witness :
    1 < c1exTurns.length ∧
    aget? ((SimpleMemoryStore.applyTurns c1exStore "s" (c1exTurns.take 2)).sessions) "s" = some c1exDoc ∧
    c1exDoc.conversation_count = c1exDoc.conversation_history.length :=
  ⟨by decide, by decide,
    c1_conversation_count_matches_history c1exStore "s" c1exTurns 1 (by decide)
      c1exDoc (by decide)⟩

/-- C5: for every response length and token usage, the confidence computed
by the GPT and the Clova adapter lies in `[0.3, 0.95]`. -/
theorem c5_confidence_bounds (lenG : Nat) (tok : Option Nat) (lenC : Nat) :
    (3 / 10 ≤ gptCalculateConfidence lenG tok ∧
      gptCalculateConfidence lenG tok ≤ 95 / 100) ∧
    (3 / 10 ≤ clovaCalculateConfidence lenC ∧
      clovaCalculateConfidence lenC ≤ 95 / 100) := by
  constructor
  · exact clamp_mem (3 / 10) (95 / 100) _ (by norm_num)
  · constructor
    · exact (clamp_mem (3 / 10) (9 / 10) _ (by norm_num)).1
    · exact le_trans (clamp_mem (3 / 10) (9 / 10) _ (by norm_num)).2 (by norm_num)

/-- C8 counterexample: on a missing id, `get_session` does return the
NOT_FOUND value (`None`), but `delete_session` returns True (success), not a
NOT_FOUND result. -/
theorem c8_counterexample :
    SimpleMemoryStore.get_session SimpleMemoryStore.empty "missing" = none ∧
    (SimpleMemoryStore.delete_session SimpleMemoryStore.empty "missing").2 = true :=
  ⟨rfl, rfl⟩

/-- C8 amended: on a missing id, `get_session` returns NOT_FOUND (`None`)
and no operation panics, but `delete_session` is an idempotent success: it
returns True and leaves the sessions dict unchanged. -/
theorem c8_amended (st : SimpleMemoryStore) (sid : String)
    (h : aget? st.sessions sid = none) :
    SimpleMemoryStore.get_session st sid = none ∧
    (SimpleMemoryStore.delete_session st sid).2 = true ∧
    (SimpleMemoryStore.delete_session st sid).1.sessions = st.sessions :=
  ⟨h, rfl, adel_not_found st.sessions sid h⟩

/-- Witness for C8 amended at the empty store. -/
theorem c8_witness :
    aget? SimpleMemoryStore.empty.sessions "m" = none ∧
    (SimpleMemoryStore.get_session SimpleMemoryStore.empty "m" = none ∧
      (SimpleMemoryStore.delete_session SimpleMemoryStore.empty "m").2 = true ∧
      (SimpleMemoryStore.delete_session SimpleMemoryStore.empty "m").1.sessions =
        SimpleMemoryStore.empty.sessions) :=
  ⟨rfl, c8_amended SimpleMemoryStore.empty "m" rfl⟩

/-- C9: `add_conversation` on an id with no session document still returns
True, appends the turn to the conversations map, creates no session:
afterwards the history is non-empty while `get_session` returns `None`. -/
theorem c9_orphan_conversation (st : SimpleMemoryStore) (sid um br : String)
    (now : Nat) (h : aget? st.sessions sid = none) :
    (SimpleMemoryStore.add_conversation st sid um br now).2 = true ∧
    SimpleMemoryStore.get_session
      (SimpleMemoryStore.add_conversation st sid um br now).1 sid = none ∧
    SimpleMemoryStore.get_conversation_history
      (SimpleMemoryStore.add_conversation st sid um br now).1 sid =
      SimpleMemoryStore.get_conversation_history st sid ++ [⟨um, br, now⟩] ∧
    SimpleMemoryStore.get_conversation_history
      (SimpleMemoryStore.add_conversation st sid um br now).1 sid ≠ [] := by
  refine ⟨rfl, ?_, ?_, ?_⟩
  · simp [SimpleMemoryStore.add_conversation, SimpleMemoryStore.get_session, h]
  · simp [SimpleMemoryStore.add_conversation,
      SimpleMemoryStore.get_conversation_history, aget_aset_self]
  · simp [SimpleMemoryStore.add_conversation,
      SimpleMemoryStore.get_conversation_history, aget_aset_self]

/-- Witness for C9 at the empty store. -/
theorem c9_witness :
    aget? SimpleMemoryStore.empty.sessions "s" = none ∧
    ((SimpleMemoryStore.add_conversation SimpleMemoryStore.empty "s" "q" "a" 1).2 = true ∧
      SimpleMemoryStore.get_session
        (SimpleMemoryStore.add_conversation SimpleMemoryStore.empty "s" "q" "a" 1).1 "s" = none ∧
      SimpleMemoryStore.get_conversation_history
        (SimpleMemoryStore.add_conversation SimpleMemoryStore.empty "s" "q" "a" 1).1 "s" =
        SimpleMemoryStore.get_conversation_history SimpleMemoryStore.empty "s" ++ [⟨"q", "a", 1⟩] ∧
      SimpleMemoryStore.get_conversation_history
        (SimpleMemoryStore.add_conversation SimpleMemoryStore.empty "s" "q" "a" 1).1 "s" ≠ []) :=
  ⟨rfl, c9_orphan_conversation SimpleMemoryStore.empty "s" "q" "a" 1 rfl⟩

/-- C4: the hybrid search returns at most `top_k` snippets, sorted by
descending score, de-duplicated by content hash; a failed backing store
contributes exactly what an empty one would, and two failed stores yield
the empty list (the function is total: no error reaches the caller). -/
theorem c4_hybrid_search_contract (chromaRes esRes : Except Unit (List RAGResult))
    (topK : Nat) :
    (hybridSearch chromaRes esRes topK).length ≤ topK ∧
    (hybridSearch chromaRes esRes topK).Pairwise (fun a b => b.score ≤ a.score) ∧
    ((hybridSearch chromaRes esRes topK).map RAGResult.content).Nodup ∧
    hybridSearch (Except.error ()) esRes topK = hybridSearch (Except.ok []) esRes topK ∧
    hybridSearch chromaRes (Except.error ()) topK = hybridSearch chromaRes (Except.ok []) topK ∧
    hybridSearch (Except.error ()) (Except.error ()) topK = [] := by
  refine ⟨?_, ?_, ?_, rfl, rfl, List.take_nil⟩
  · exact List.length_take_le _ _
  · exact List.Pairwise.sublist
      ((List.take_sublist _ _).trans (sublist_dedup _ _))
      (pairwise_sortDesc _)
  · rw [hybridSearch, List.map_take]
    exact List.Nodup.sublist (List.take_sublist _ _)
      (dedup_contents_nodup _ _).1

/-- C3 counterexample: with experts gpt and clova selected, the compiled
graph runs classifier, selector, the gpt node, and then routes straight to
the moderator: the clova node is never visited, so the engine does not join
on all selected experts before Moderate, and there is no parallel fan-out
node at all (every node has one successor). -/
theorem c3_counterexample :
    "clova" ∈ (["gpt", "clova"] : List String) ∧
    executionTrace ["gpt", "clova"] =
      [WNode.ragClassifier, WNode.agentSelector, WNode.gptAgent,
        WNode.debateModerator] ∧
    WNode.clovaAgent ∉ executionTrace ["gpt", "clova"] := by
  decide

/-- C3 amended: for every selection the selector can produce, the engine
executes the experts sequentially in the fixed order gpt, gemini, clova as
one linear chain ending at the moderator; all selected experts are visited
before the moderator unless the selection is gpt and clova without gemini,
in which case clova is skipped. -/
theorem c3_sequential_routing (sel : List String)
    (h : sel ∈ validSelections) : sequentialRoutingContract sel := by
  unfold sequentialRoutingContract
  fin_cases h <;> decide

/-- Witness for C3 amended at the full selection. -/
theorem c3_witness :
    (["gpt", "gemini", "clova"] : List String) ∈ validSelections ∧
    sequentialRoutingContract ["gpt", "gemini", "clova"] :=
  ⟨by decide, c3_sequential_routing ["gpt", "gemini", "clova"] (by decide)⟩

/-- C10: each expert node is frame-preserving with respect to selection:
when its agent is not selected it returns the state unchanged, and when it
is, the only field it changes is `agent_responses`, to which it adds exactly
its own entry, preserving the bindings of every other agent. -/
theorem c10_expert_nodes_frame (s : AgentState) (r : AgentResponse) :
    ("gpt" ∉ s.selected_agents → executeGptAgent s r = s) ∧
    ("gpt" ∈ s.selected_agents →
        executeGptAgent s r =
          { s with agent_responses := aset s.agent_responses "gpt" r } ∧
        aget? (executeGptAgent s r).agent_responses "gpt" = some r ∧
        ∀ k, k ≠ "gpt" →
          aget? (executeGptAgent s r).agent_responses k =
            aget? s.agent_responses k) ∧
    ("gemini" ∉ s.selected_agents → executeGeminiAgent s r = s) ∧
    ("gemini" ∈ s.selected_agents →
        executeGeminiAgent s r =
          { s with agent_responses := aset s.agent_responses "gemini" r } ∧
        aget? (executeGeminiAgent s r).agent_responses "gemini" = some r ∧
        ∀ k, k ≠ "gemini" →
          aget? (executeGeminiAgent s r).agent_responses k =
            aget? s.agent_responses k) ∧
    ("clova" ∉ s.selected_agents → executeClovaAgent s r = s) ∧
    ("clova" ∈ s.selected_agents →
        executeClovaAgent s r =
          { s with agent_responses := aset s.agent_responses "clova" r } ∧
        aget? (executeClovaAgent s r).agent_responses "clova" = some r ∧
        ∀ k, k ≠ "clova" →
          aget? (executeClovaAgent s r).agent_responses k =
            aget? s.agent_responses k) := by
  refine ⟨?_, ?_, ?_, ?_, ?_, ?_⟩
  · intro h; simp [executeGptAgent, h]
  · intro h
    refine ⟨by simp [executeGptAgent, h], ?_, ?_⟩
    · simp [executeGptAgent, h, aget_aset_self]
    · intro k hk
      simp [executeGptAgent, h, aget_aset_other _ _ _ _ hk]
  · intro h; simp [executeGeminiAgent, h]
  · intro h
    refine ⟨by simp [executeGeminiAgent, h], ?_, ?_⟩
    · simp [executeGeminiAgent, h, aget_aset_self]
    · intro k hk
      simp [executeGeminiAgent, h, aget_aset_other _ _ _ _ hk]
  · intro h; simp [executeClovaAgent, h]
  · intro h
    refine ⟨by simp [executeClovaAgent, h], ?_, ?_⟩
    · simp [executeClovaAgent, h, aget_aset_self]
    · intro k hk
      simp [executeClovaAgent, h, aget_aset_other _ _ _ _ hk]

/-- Witness for C10 at a state selecting only gpt. -/
theorem c10_witness :
    "gpt" ∈ exState.selected_agents ∧
    executeGptAgent exState exResponse =
      { exState with
          agent_responses := aset exState.agent_responses "gpt" exResponse } :=
  ⟨by decide, ((c10_expert_nodes_frame exState exResponse).2.1 (by decide)).1⟩

/-- C6: with zero expert responses the moderator returns the fixed
zero-confidence recommendation and performs zero invocations of the
moderator LLM D. -/
theorem c6_zero_experts (state : AgentState) (o1 : Option Unit)
    (o2 : Option DebateSim) (o3 oS : Option Recommendation)
    (h : state.agent_responses = []) :
    moderateDebate state o1 o2 o3 oS =
      ({ state with
           final_recommendation := some noAgentsRecommendation,
           processing_steps :=
             state.processing_steps ++ ["single_agent_processed"] }, 0) ∧
    noAgentsRecommendation.confidence_level = 0 ∧
    noAgentsRecommendation.executive_summary = "분석할 전문가 응답이 없습니다." := by
  refine ⟨?_, rfl, rfl⟩
  simp [moderateDebate, handleSingleAgentResponse, h]

/-- Witness for C6 at a concrete state with no responses. -/
theorem c6_witness :
    exState.agent_responses = [] ∧
    (moderateDebate exState none none none none =
      ({ exState with
           final_recommendation := some noAgentsRecommendation,
           processing_steps :=
             exState.processing_steps ++ ["single_agent_processed"] }, 0) ∧
      noAgentsRecommendation.confidence_level = 0 ∧
      noAgentsRecommendation.executive_summary = "분석할 전문가 응답이 없습니다.") :=
  ⟨rfl, c6_zero_experts exState none none none none rfl⟩

/-- C7 counterexample: with two expert responses and all three moderator
phases failing to parse, the returned recommendation is the synthesis error
record: it does not carry `fallback: true` and its executive summary is not
the best expert text.  Even `handle_debate_failure` (reached only on an
unexpected error) puts the expert text under `primary_response`, not into
the executive summary. -/
theorem c7_counterexample :
    c7exState.agent_responses.length = 2 ∧
    ((moderateDebate c7exState none none none none).1.final_recommendation).map
        Recommendation.fallback = some false ∧
    ((moderateDebate c7exState none none none none).1.final_recommendation).map
        Recommendation.executive_summary ≠ some "point A" ∧
    ((moderateDebate c7exState none none none none).1.final_recommendation).map
        Recommendation.error = some (some "최종 솔루션 파싱 실패") ∧
    ((handleDebateFailure c7exState c7exState.agent_responses).final_recommendation).map
        Recommendation.executive_summary ≠ some "point A" ∧
    ((handleDebateFailure c7exState c7exState.agent_responses).final_recommendation).map
        Recommendation.primary_response = some (some "point A") := by
  have hcmp : ¬((9 : ℚ) / 10 < 3 / 4) := by norm_num
  refine ⟨rfl, rfl, ?_, rfl, ?_, ?_⟩
  · simp [moderateDebate, synthesizeFinalSolution, simulateExpertDebate,
      c7exState, c7exHd, c7exTl, emptyRecommendation]
  · simp [handleDebateFailure, maxByConfidence, c7exState, c7exHd, c7exTl,
      hcmp, emptyRecommendation]
  · simp [handleDebateFailure, maxByConfidence, c7exState, c7exHd, c7exTl,
      hcmp, emptyRecommendation]

/-- C7 amended: when all three phases fail to parse, the turn ends with the
synthesis error record (no fallback flag, three D invocations); the
separate `handle_debate_failure` path, reached only when the moderator
raises unexpectedly, builds its recommendation from a maximal-confidence
expert response, sets `fallback: true`, copies the expert text into
`primary_response`, and uses a fixed notice as the executive summary. -/
theorem c7_debate_failure_contract (state : AgentState)
    (hd : String × AgentResponse) (tl : List (String × AgentResponse))
    (o2 : Option DebateSim) (oS : Option Recommendation) :
    (2 ≤ state.agent_responses.length →
        (moderateDebate state none o2 none oS).1.final_recommendation =
          some { emptyRecommendation with error := some "최종 솔루션 파싱 실패" } ∧
        (moderateDebate state none o2 none oS).2 = 3) ∧
    (state.agent_responses = hd :: tl →
        (handleDebateFailure state state.agent_responses).final_recommendation =
          some { emptyRecommendation with
              executive_summary :=
                "토론 진행 중 오류가 발생하여 최고 신뢰도 전문가 의견을 제시합니다."
              primary_response := some (maxByConfidence hd tl).2.response
              primary_agent := some (maxByConfidence hd tl).1
              confidence_level := (maxByConfidence hd tl).2.confidence
              fallback := true
              note := some
                "토론 시뮬레이션에 실패했으나, 개별 전문가 분석은 정상적으로 완료되었습니다." } ∧
        maxByConfidence hd tl ∈ state.agent_responses ∧
        ∀ x ∈ state.agent_responses,
          x.2.confidence ≤ (maxByConfidence hd tl).2.confidence) := by
  constructor
  · intro h
    rw [moderateDebate, if_neg (by omega)]
    exact ⟨rfl, rfl⟩
  · intro h
    rw [h]
    refine ⟨rfl, maxByConfidence_mem hd tl, maxByConfidence_ge hd tl⟩

/-- Witness for C7 amended at two concrete responses. -/
theorem c7_witness :
    2 ≤ c7exState.agent_responses.length ∧
    c7exState.agent_responses = c7exHd :: c7exTl ∧
    ((moderateDebate c7exState none none none none).1.final_recommendation =
        some { emptyRecommendation with error := some "최종 솔루션 파싱 실패" } ∧
      (moderateDebate c7exState none none none none).2 = 3) ∧
    maxByConfidence c7exHd c7exTl ∈ c7exState.agent_responses :=
  ⟨by decide, rfl,
    (c7_debate_failure_contract c7exState c7exHd c7exTl none none).1 (by decide),
    (((c7_debate_failure_contract c7exState c7exHd c7exTl none none).2) rfl).2.1⟩

/-- C2 counterexample: a turn on the test chat endpoint whose workflow
fails (HTTP 500, no Recommendation) still increments the stored
conversation counter from 0 to 1, because the endpoint bumps the counter
before executing the workflow. -/
theorem c2_counterexample :
    (chatTestEndpoint c2exStore (some "s") "n" "u" "GENERAL" false c2exEntry).2 = 500 ∧
    aget? c2exStore "s" = some ⟨"s", "u", "GENERAL", 0, []⟩ ∧
    aget? (chatTestEndpoint c2exStore (some "s") "n" "u" "GENERAL" false c2exEntry).1 "s" =
      some ⟨"s", "u", "GENERAL", 1, []⟩ := by
  decide

/-- C2 amended: on a workflow failure the main chat endpoint leaves the
session store completely unchanged (commit happens only after the
Recommendation); the test chat endpoint leaves the history unchanged but
has already incremented the conversation counter by one. -/
theorem c2_commit_semantics (store : SessionStore)
    (sid newId userId issueCode : String) (s : Session) (entry : ConvEntry)
    (h : aget? store sid = some s) :
    chatEndpoint store (some sid) newId userId issueCode false entry =
      (store, 500) ∧
    (chatTestEndpoint store (some sid) newId userId issueCode false entry).2 = 500 ∧
    aget? (chatTestEndpoint store (some sid) newId userId issueCode false entry).1 sid =
      some { s with conversation_count := s.conversation_count + 1 } := by
  refine ⟨?_, ?_, ?_⟩
  · simp [chatEndpoint, h]
  · simp [chatTestEndpoint, h]
  · simp [chatTestEndpoint, h, smIncrementCount, aget_aset_self]

/-- Witness for C2 amended at a concrete one-session store. -/
theorem c2_witness :
    aget? c2exStore "s" = some ⟨"s", "u", "GENERAL", 0, []⟩ ∧
    (chatEndpoint c2exStore (some "s") "n" "u" "GENERAL" false c2exEntry =
        (c2exStore, 500) ∧
      (chatTestEndpoint c2exStore (some "s") "n" "u" "GENERAL" false c2exEntry).2 = 500 ∧
      aget? (chatTestEndpoint c2exStore (some "s") "n" "u" "GENERAL" false c2exEntry).1 "s" =
        some { (⟨"s", "u", "GENERAL", 0, []⟩ : Session) with
            conversation_count := 0 + 1 }) :=
  ⟨rfl, c2_commit_semantics c2exStore "s" "n" "u" "GENERAL"
    ⟨"s", "u", "GENERAL", 0, []⟩ c2exEntry rfl⟩

end MultiAgent
